import Mathlib

/-!
Verification development for the postgres-ai orchestration core.

The Python source (src/chatbot/) is embedded shallowly:

* `timeRangeParse` embeds `TimeRangeParser.parse` (src/chatbot/agent.py).
  The four regular-expression patterns are embedded as hand-rolled
  matchers reproducing `re.search` semantics (leftmost start position,
  ordered alternation, greedy quantifiers with backtracking) for these
  specific patterns.  Timestamps are idealized as unbounded integers
  (epoch seconds, no DST, whole seconds), so `datetime` arithmetic with
  fixed `relativedelta` amounts becomes integer arithmetic and a
  calendar day is 86400 s.  The external `dateutil` parser is an oracle
  (`ParseEnv`).  A Python exception is `Except.error` carrying the
  exception message.
-/

namespace PGAI

/-- Python `\s` for the ASCII strings handled here: space, tab,
newline, carriage return, vertical tab, form feed. -/
def isSpaceC (c : Char) : Bool :=
  c = ' ' || c = '\t' || c = '\n' || c = '\x0d' || c = '\x0b' || c = '\x0c'

/-- Match a literal character sequence at the front, returning the rest. -/
def lit : List Char → List Char → Option (List Char)
  | [], cs => some cs
  | _, [] => none
  | p :: ps, c :: cs => if c = p then lit ps cs else none

/-- Numeric value of a digit run (Python `int` on the captured group). -/
def digitsToNat (ds : List Char) : Nat :=
  ds.foldl (fun a c => 10 * a + (c.toNat - '0'.toNat)) 0

/-- First success of `f` over ordered alternatives (regex backtracking order). -/
def firstSome {α β : Type} (f : α → Option β) : List α → Option β
  | [] => none
  | x :: xs =>
    match f x with
    | some r => some r
    | none => firstSome f xs

/-- Embeds `re.search`: try the matcher at each start position, leftmost first
(including the empty suffix at the end of the string). -/
def searchPos {α : Type} (m : List Char → Option α) : List Char → Option α
  | [] => m []
  | c :: cs =>
    match m (c :: cs) with
    | some r => some r
    | none => searchPos m cs

/-- Drop `\s*`. -/
def dropSpaces (cs : List Char) : List Char := (cs.span isSpaceC).2

/-- Drop `,?`. -/
def dropComma : List Char → List Char
  | ',' :: cs => cs
  | cs => cs

/-- Embeds `(\d{1,2})`: greedy with backtracking — the two-digit reading first,
then the one-digit reading. -/
def digits12 : List Char → List (Nat × List Char)
  | c1 :: c2 :: rest =>
    if c1.isDigit && c2.isDigit then
      [(digitsToNat [c1, c2], rest), (digitsToNat [c1], c2 :: rest)]
    else if c1.isDigit then [(digitsToNat [c1], c2 :: rest)]
    else []
  | [c1] => if c1.isDigit then [(digitsToNat [c1], [])] else []
  | [] => []

/-! ### Pattern 1: `last\s+(\d+)\s+(minute|hour|day|week)s?` -/

/-- Units of the "last N ..." pattern. -/
inductive TUnit where
  | minute | hour | day | week
deriving DecidableEq

/-- Seconds per unit; `relativedelta` day/week amounts are idealized as
fixed 86400 s / 604800 s (no DST). -/
def unitSecs : TUnit → Int
  | .minute => 60
  | .hour => 3600
  | .day => 86400
  | .week => 604800

/-- Alternation `minute|hour|day|week`, tried in the source order. -/
def matchUnit4 (cs : List Char) : Option (TUnit × List Char) :=
  match lit "minute".data cs with
  | some r => some (.minute, r)
  | none =>
  match lit "hour".data cs with
  | some r => some (.hour, r)
  | none =>
  match lit "day".data cs with
  | some r => some (.day, r)
  | none =>
  match lit "week".data cs with
  | some r => some (.week, r)
  | none => none

/-- The "last N unit" pattern, matched at one start position.  In this
pattern `\d+`/`\s+` runs are forced maximal (the follower's character
class is disjoint), so no backtracking arises. -/
def match1At (cs : List Char) : Option (Nat × TUnit) :=
  match lit "last".data cs with
  | none => none
  | some cs1 =>
    let s1 := cs1.span isSpaceC
    if s1.1.isEmpty then none else
    let s2 := s1.2.span Char.isDigit
    if s2.1.isEmpty then none else
    let s3 := s2.2.span isSpaceC
    if s3.1.isEmpty then none else
    match matchUnit4 s3.2 with
    | none => none
    | some u => some (digitsToNat s2.1, u.1)

/-! ### Pattern 2: `(\d+)\s+(minute|hour|day)s?\s+ago` -/

/-- Units of the "N ... ago" pattern. -/
inductive TUnit3 where
  | minute | hour | day
deriving DecidableEq

/-- Seconds per unit of the "ago" pattern. -/
def unit3Secs : TUnit3 → Int
  | .minute => 60
  | .hour => 3600
  | .day => 86400

/-- Alternation `minute|hour|day`, tried in the source order. -/
def matchUnit3 (cs : List Char) : Option (TUnit3 × List Char) :=
  match lit "minute".data cs with
  | some r => some (.minute, r)
  | none =>
  match lit "hour".data cs with
  | some r => some (.hour, r)
  | none =>
  match lit "day".data cs with
  | some r => some (.day, r)
  | none => none

/-- The "N unit ago" pattern at one start position.  The optional `s`
is consumed when present (skipping it would leave an `s` where `\s+`
must match, so consumption is forced). -/
def match2At (cs : List Char) : Option (Nat × TUnit3) :=
  let d := cs.span Char.isDigit
  if d.1.isEmpty then none else
  let s1 := d.2.span isSpaceC
  if s1.1.isEmpty then none else
  match matchUnit3 s1.2 with
  | none => none
  | some ur =>
    let rest1 :=
      match ur.2 with
      | 's' :: t => t
      | r => r
    let s2 := rest1.span isSpaceC
    if s2.1.isEmpty then none else
    match lit "ago".data s2.2 with
    | some _ => some (digitsToNat d.1, ur.1)
    | none => none

/-! ### Pattern 3: `(today|yesterday)\s+(\d{1,2})\s*(am|pm)?\s*(?:to|-)\s*(\d{1,2})\s*(am|pm)?` -/

/-- The day alternative of the day pattern. -/
inductive DayRef where
  | today | yesterday
deriving DecidableEq

/-- An `am`/`pm` marker. -/
inductive AmPm where
  | am | pm
deriving DecidableEq

/-- Captured groups of the day pattern. -/
structure DayMatch where
  day : DayRef
  startHour : Nat
  startAmPm : Option AmPm
  endHour : Nat
  endAmPm : Option AmPm
deriving DecidableEq

/-- Embeds `(am|pm)?`: consume a marker when literally present (skipping a
present marker cannot help: the follower `\s*(?:to|-)` cannot start at
the letter `a`/`p`, and at the pattern end greedy prefers consuming). -/
def optAmPm (cs : List Char) : Option AmPm × List Char :=
  match lit "am".data cs with
  | some r => (some .am, r)
  | none =>
  match lit "pm".data cs with
  | some r => (some .pm, r)
  | none => (none, cs)

/-- Embeds `(?:to|-)`, alternatives in the source order. -/
def matchToDash (cs : List Char) : Option (List Char) :=
  match lit "to".data cs with
  | some r => some r
  | none => lit "-".data cs

/-- Day pattern after the start hour has been read. -/
def match3Rest (d : DayRef) (h1 : Nat) (cs0 : List Char) : Option DayMatch :=
  let ap1 := optAmPm (dropSpaces cs0)
  match matchToDash (dropSpaces ap1.2) with
  | none => none
  | some cs1 =>
    firstSome
      (fun p =>
        let ap2 := optAmPm (dropSpaces p.2)
        some { day := d, startHour := h1, startAmPm := ap1.1,
               endHour := p.1, endAmPm := ap2.1 })
      (digits12 (dropSpaces cs1))

/-- The day pattern at one start position. -/
def match3At (cs : List Char) : Option DayMatch :=
  let dayOpt : Option (DayRef × List Char) :=
    match lit "today".data cs with
    | some r => some (.today, r)
    | none =>
    match lit "yesterday".data cs with
    | some r => some (.yesterday, r)
    | none => none
  match dayOpt with
  | none => none
  | some dr =>
    let s1 := dr.2.span isSpaceC
    if s1.1.isEmpty then none else
    firstSome (fun p => match3Rest dr.1 p.1 p.2) (digits12 s1.2)

/-! ### Pattern 4:
`([A-Za-z]+\s+\d{1,2}(?:st|nd|rd|th)?\s*,?\s*\d{4})\s*,?\s*(\d{1,2})(?::(\d{2}))?\s*-\s*(\d{1,2})(?::(\d{2}))?\s*(AM|PM|am|pm)?`
(searched on the original, non-lowercased expression). -/

/-- Captured groups of the date-range pattern; `dateStr` is group 1,
handed to the external calendar parser. -/
structure DateRangeMatch where
  dateStr : String
  startHour : Nat
  startMin : Nat
  endHour : Nat
  endMin : Nat
  ampm : Option String
deriving DecidableEq

/-- Embeds `(?:st|nd|rd|th)?`: the consumed reading, in source alternation order. -/
def matchOrd (cs : List Char) : Option (List Char) :=
  match lit "st".data cs with
  | some r => some r
  | none =>
  match lit "nd".data cs with
  | some r => some r
  | none =>
  match lit "rd".data cs with
  | some r => some r
  | none => lit "th".data cs

/-- Embeds `\d{4}`: exactly four digits. -/
def take4Digits : List Char → Option (Nat × List Char)
  | c1 :: c2 :: c3 :: c4 :: rest =>
    if c1.isDigit && c2.isDigit && c3.isDigit && c4.isDigit then
      some (digitsToNat [c1, c2, c3, c4], rest)
    else none
  | _ => none

/-- Embeds `(?::(\d{2}))?`: the consumed reading first (greedy), then the
skipped reading; an absent group defaults the minutes to 0 as in the
source (`int(match.group(3)) if match.group(3) else 0`). -/
def colonMinAlts (cs : List Char) : List (Nat × List Char) :=
  match cs with
  | ':' :: c1 :: c2 :: rest =>
    if c1.isDigit && c2.isDigit then [(digitsToNat [c1, c2], rest), (0, cs)]
    else [(0, cs)]
  | _ => [(0, cs)]

/-- Embeds `(AM|PM|am|pm)?`, alternatives in the source order (case-sensitive:
this pattern is applied to the original string). -/
def matchAmPm4 (cs : List Char) : Option String :=
  match lit "AM".data cs with
  | some _ => some "AM"
  | none =>
  match lit "PM".data cs with
  | some _ => some "PM"
  | none =>
  match lit "am".data cs with
  | some _ => some "am"
  | none =>
  match lit "pm".data cs with
  | some _ => some "pm"
  | none => none

/-- Date-range pattern after group 1 (the date phrase) has been read. -/
def match4Time (g1 : List Char) (cs0 : List Char) : Option DateRangeMatch :=
  let cs1 := dropSpaces (dropComma (dropSpaces cs0))
  firstSome
    (fun h1 =>
      firstSome
        (fun m1 =>
          match lit "-".data (dropSpaces m1.2) with
          | none => none
          | some cs2 =>
            firstSome
              (fun h2 =>
                firstSome
                  (fun m2 =>
                    some { dateStr := String.mk g1,
                           startHour := h1.1, startMin := m1.1,
                           endHour := h2.1, endMin := m2.1,
                           ampm := matchAmPm4 (dropSpaces m2.2) })
                  (colonMinAlts h2.2))
              (digits12 (dropSpaces cs2)))
        (colonMinAlts h1.2))
    (digits12 cs1)

/-- The date-range pattern at one start position.  `[A-Za-z]+` and
`\s+` runs are forced maximal; the day digits and the ordinal suffix
backtrack in greedy order. -/
def match4At (cs0 : List Char) : Option DateRangeMatch :=
  let a := cs0.span Char.isAlpha
  if a.1.isEmpty then none else
  let s1 := a.2.span isSpaceC
  if s1.1.isEmpty then none else
  firstSome
    (fun dayd =>
      let ordAlts : List (List Char) :=
        match matchOrd dayd.2 with
        | some r => [r, dayd.2]
        | none => [dayd.2]
      firstSome
        (fun cs2 =>
          match take4Digits (dropSpaces (dropComma (dropSpaces cs2))) with
          | none => none
          | some yr =>
            -- group 1 = everything consumed from this start position
            match4Time (cs0.take (cs0.length - yr.2.length)) yr.2)
        ordAlts)
    (digits12 s1.2)

/-! ### The resolver -/

/-- The reference instant: its epoch seconds (`int(ref.timestamp())`)
and the epoch seconds of midnight of its calendar date
(`datetime.combine(ref.date(), time(0)).timestamp()`). -/
structure RefTime where
  epoch : Int
  midnight : Int
deriving DecidableEq

/-- External `dateutil` collaborators: `fuzzyParse` models
`date_parser.parse(expr, fuzzy=True)` returning the parsed instant
(`none` = the call raised); `dateParse` models
`date_parser.parse(date_str).date()` returning midnight of the parsed
date (`none` = the call raised). -/
structure ParseEnv where
  fuzzyParse : String → Option Int
  dateParse : String → Option Int

/-- Models the 12-hour to 24-hour conversion of the day pattern:
`if ampm == "pm" and hour < 12: hour += 12`. -/
def adjustPm (h : Nat) (ap : Option AmPm) : Nat :=
  if ap = some AmPm.pm ∧ h < 12 then h + 12 else h

/-- Embeds `datetime.min.time().replace(hour=h, minute=m)` followed by
`datetime.combine`: validates the fields (raising `ValueError` exactly
as `time.replace` does) and yields the offset from midnight. -/
def mkTimeSecs (h m : Nat) : Except String Int :=
  if 23 < h then .error "hour must be in 0..23"
  else if 59 < m then .error "minute must be in 0..59"
  else .ok (3600 * (h : Int) + 60 * (m : Int))

/-- Embeds `time_expression.lower()` as a character list (ASCII lowering, as
`str.lower` does on these ASCII patterns). -/
def lowerData (s : String) : List Char := s.data.map Char.toLower

/-- Embeds `TimeRangeParser.parse`: the four patterns in source order, then
the fuzzy fallback, then the default window.  `Except.error` is a
Python exception escaping the call. -/
def timeRangeParse (env : ParseEnv) (ref : RefTime) (expr : String) :
    Except String (Int × Int) :=
  match searchPos match1At (lowerData expr) with
  | some nu => .ok (ref.epoch - (nu.1 : Int) * unitSecs nu.2, ref.epoch)
  | none =>
  match searchPos match2At (lowerData expr) with
  | some nu =>
    .ok (ref.epoch - (nu.1 : Int) * unit3Secs nu.2 - 300,
         ref.epoch - (nu.1 : Int) * unit3Secs nu.2 + 300)
  | none =>
  match searchPos match3At (lowerData expr) with
  | some dm =>
    let base := if dm.day = DayRef.yesterday then ref.midnight - 86400 else ref.midnight
    (do
      let s ← mkTimeSecs (adjustPm dm.startHour dm.startAmPm) 0
      let e ← mkTimeSecs (adjustPm dm.endHour dm.endAmPm) 0
      return (base + s, base + e))
  | none =>
  match searchPos match4At expr.data with
  | some dr =>
    let base := (env.dateParse dr.dateStr).getD ref.midnight
    let pm : Bool :=
      match dr.ampm with
      | some a => a.toLower == "pm"
      | none => false
    let sh := if pm ∧ dr.startHour < 12 then dr.startHour + 12 else dr.startHour
    let eh := if pm ∧ dr.endHour < 12 then dr.endHour + 12 else dr.endHour
    (do
      let s ← mkTimeSecs sh dr.startMin
      let e ← mkTimeSecs eh dr.endMin
      return (base + s, base + e))
  | none =>
  match env.fuzzyParse expr with
  | some t => .ok (t - 1800, t + 1800)
  | none => .ok (ref.epoch - 3600, ref.epoch)

/-!
### Anomaly engine

Embeds `ToolExecutor._analyze_metric_anomalies` (src/chatbot/tools.py).
Float arithmetic is idealized as exact real arithmetic; `variance ** 0.5`
is `Real.sqrt`.  The `round(x, 2)` applied to the displayed statistics
is a display formatting step and is omitted (the detection logic uses
the unrounded values).  A sample value of `none` models a `None` data
point (a `NaN` backend result).
-/

/-- One `(time, value)` sample of a processed series. -/
structure RangeSample where
  time : Int
  value : Option ℝ

/-- One processed series: label set plus samples
(`{"labels": ..., "values": [...]}`). -/
structure SeriesData where
  labels : List (String × String)
  values : List RangeSample

/-- Embeds `values = [v["value"] for v in series.get("values", []) if v["value"] is not None]` -/
def presentValues (s : SeriesData) : List ℝ :=
  s.values.filterMap (·.value)

/-- Embeds `avg = sum(values) / len(values)` (only used when `values` is nonempty). -/
noncomputable def seriesAvg (s : SeriesData) : ℝ :=
  (presentValues s).sum / (presentValues s).length

/-- Embeds `max_val = max(values)` (junk value 0 on the empty list, which the
caller guards against). -/
noncomputable def seriesMax (s : SeriesData) : ℝ :=
  match presentValues s with
  | [] => 0
  | v :: vs => vs.foldl max v

/-- Embeds `min_val = min(values)` (junk value 0 on the empty list, which the
caller guards against). -/
noncomputable def seriesMin (s : SeriesData) : ℝ :=
  match presentValues s with
  | [] => 0
  | v :: vs => vs.foldl min v

/-- Embeds `variance = sum((x - avg) ** 2 for x in values) / len(values)` -/
noncomputable def seriesVariance (s : SeriesData) : ℝ :=
  ((presentValues s).map (fun x => (x - seriesAvg s) ^ 2)).sum / (presentValues s).length

/-- Embeds `std_dev = variance ** 0.5` -/
noncomputable def seriesStd (s : SeriesData) : ℝ :=
  Real.sqrt (seriesVariance s)

/-- Embeds `threshold_high = avg + (2 * std_dev)` -/
noncomputable def thresholdHigh (s : SeriesData) : ℝ :=
  seriesAvg s + 2 * seriesStd s

/-- Embeds `threshold_low = avg - (2 * std_dev) if avg - (2 * std_dev) > 0 else 0` -/
noncomputable def thresholdLow (s : SeriesData) : ℝ :=
  if seriesAvg s - 2 * seriesStd s > 0 then seriesAvg s - 2 * seriesStd s else 0

/-- One reported spike or drop. -/
structure AnomalyPoint where
  timestamp : Int
  value : ℝ
  deviation : ℝ

/-- The spike list before the `[:10]` truncation: the `if` arm of the
detection loop, in sample order. -/
noncomputable def spikesOf (s : SeriesData) : List AnomalyPoint :=
  s.values.filterMap fun p =>
    match p.value with
    | none => none
    | some v =>
      if v > thresholdHigh s then
        some ⟨p.time, v, if seriesStd s > 0 then (v - seriesAvg s) / seriesStd s else 0⟩
      else none

/-- The drop list before the `[:10]` truncation: the `elif` arm of the
detection loop (so a sample in the spike arm is never examined for the
drop condition), in sample order. -/
noncomputable def dropsOf (s : SeriesData) : List AnomalyPoint :=
  s.values.filterMap fun p =>
    match p.value with
    | none => none
    | some v =>
      if v > thresholdHigh s then none
      else if v < thresholdLow s then
        some ⟨p.time, v, if seriesStd s > 0 then (seriesAvg s - v) / seriesStd s else 0⟩
      else none

/-- The per-series statistics record. -/
structure SeriesStats where
  average : ℝ
  max : ℝ
  min : ℝ
  std_dev : ℝ

/-- The per-series entry of `anomaly_analysis`. -/
structure SeriesReport where
  labels : List (String × String)
  statistics : SeriesStats
  spikes : List AnomalyPoint
  drops : List AnomalyPoint
  has_anomalies : Bool

/-- One iteration of the analysis loop: `none` models the
`if not values: continue` branch (the series contributes no entry);
`has_anomalies = len(spikes) > 0 or len(drops) > 0` is computed on the
untruncated lists. -/
noncomputable def analyzeSeries (s : SeriesData) : Option SeriesReport :=
  if (presentValues s).isEmpty then none
  else some
    { labels := s.labels
      statistics :=
        { average := seriesAvg s, max := seriesMax s, min := seriesMin s,
          std_dev := seriesStd s }
      spikes := (spikesOf s).take 10
      drops := (dropsOf s).take 10
      has_anomalies := !(spikesOf s).isEmpty || !(dropsOf s).isEmpty }

/-- The result shape of `_analyze_metric_anomalies`. -/
structure AnomalyResult where
  metric_name : String
  period_start : Int
  period_end : Int
  anomaly_analysis : List SeriesReport

/-- Embeds `_analyze_metric_anomalies`: the `data` argument is the outcome of
`_query_prometheus_metric` (`.error` models its error-tagged result,
which is returned unchanged). -/
noncomputable def analyzeMetricAnomalies (name : String) (startTs endTs : Int)
    (data : Except String (List SeriesData)) : Except String AnomalyResult :=
  match data with
  | .error e => .error e
  | .ok series => .ok ⟨name, startTs, endTs, series.filterMap analyzeSeries⟩

/-!
### Metric catalog

Embeds `PromQLBuilder` (src/chatbot/promql_builder.py).  Threshold
values are exact rationals.  Braces and single quotes inside the PromQL
template strings are written with hexadecimal escapes.
-/

/-- Embeds `MetricQuery` dataclass. -/
structure MetricQuery where
  name : String
  query : String
  description : String
  unit : String
  threshold_warning : Option ℚ := none
  threshold_critical : Option ℚ := none
deriving DecidableEq

/-- Embeds `PromQLBuilder.METRICS`, in source order. -/
def METRICS : List (String × MetricQuery) :=
  [ ("active_connections",
     { name := "Active Connections",
       query := "pg_stat_activity_count\x7bstate=\x27active\x27\x7d",
       description := "Number of active database connections",
       unit := "connections", threshold_warning := some 80, threshold_critical := some 95 }),
    ("idle_connections",
     { name := "Idle Connections",
       query := "pg_stat_activity_count\x7bstate=\x27idle\x27\x7d",
       description := "Number of idle database connections",
       unit := "connections" }),
    ("total_connections",
     { name := "Total Connections",
       query := "sum(pg_stat_activity_count)",
       description := "Total number of database connections",
       unit := "connections", threshold_warning := some 80, threshold_critical := some 95 }),
    ("max_connections",
     { name := "Max Connections",
       query := "pg_settings_max_connections",
       description := "Maximum allowed connections",
       unit := "connections" }),
    ("connection_utilization",
     { name := "Connection Utilization",
       query := "(sum(pg_stat_activity_count) / pg_settings_max_connections) * 100",
       description := "Percentage of max connections in use",
       unit := "percent", threshold_warning := some 80, threshold_critical := some 95 }),
    ("transactions_committed",
     { name := "Transactions Committed",
       query := "rate(pg_stat_database_xact_commit\x7bdatname=\x27testdb\x27\x7d[5m])",
       description := "Rate of committed transactions per second",
       unit := "tx/s" }),
    ("transactions_rolled_back",
     { name := "Transactions Rolled Back",
       query := "rate(pg_stat_database_xact_rollback\x7bdatname=\x27testdb\x27\x7d[5m])",
       description := "Rate of rolled back transactions per second",
       unit := "tx/s" }),
    ("transaction_wraparound",
     { name := "Transaction Wraparound Age",
       query := "pg_database_wraparound_age_datfrozenxid_age",
       description := "Age of oldest unfrozen transaction ID",
       unit := "transactions",
       threshold_warning := some 500000000, threshold_critical := some 1000000000 }),
    ("locks_total",
     { name := "Total Locks",
       query := "sum(pg_locks_count)",
       description := "Total number of locks held",
       unit := "locks" }),
    ("exclusive_locks",
     { name := "Exclusive Locks",
       query := "pg_locks_count\x7bmode=\x27ExclusiveLock\x27\x7d",
       description := "Number of exclusive locks",
       unit := "locks" }),
    ("waiting_locks",
     { name := "Waiting Locks",
       query := "pg_locks_count\x7bgranted=\x27false\x27\x7d",
       description := "Number of locks waiting to be granted",
       unit := "locks", threshold_warning := some 5, threshold_critical := some 20 }),
    ("buffer_cache_hit_ratio",
     { name := "Buffer Cache Hit Ratio",
       query := "(pg_stat_database_blks_hit\x7bdatname=\x27testdb\x27\x7d / (pg_stat_database_blks_hit\x7bdatname=\x27testdb\x27\x7d + pg_stat_database_blks_read\x7bdatname=\x27testdb\x27\x7d)) * 100",
       description := "Percentage of requests served from buffer cache",
       unit := "percent", threshold_warning := some 95, threshold_critical := some 90 }),
    ("blocks_read",
     { name := "Blocks Read",
       query := "rate(pg_stat_database_blks_read\x7bdatname=\x27testdb\x27\x7d[5m])",
       description := "Rate of disk blocks read per second",
       unit := "blocks/s" }),
    ("blocks_hit",
     { name := "Blocks Hit",
       query := "rate(pg_stat_database_blks_hit\x7bdatname=\x27testdb\x27\x7d[5m])",
       description := "Rate of buffer cache hits per second",
       unit := "blocks/s" }),
    ("backend_writes",
     { name := "Backend Buffer Writes",
       query := "rate(pg_stat_bgwriter_buffers_backend_total[5m])",
       description := "Rate of buffers written directly by backend",
       unit := "buffers/s", threshold_warning := some 100, threshold_critical := some 500 }),
    ("checkpoints",
     { name := "Checkpoints",
       query := "rate(pg_stat_bgwriter_checkpoints_timed_total[5m])",
       description := "Rate of scheduled checkpoints",
       unit := "checkpoints/s" }),
    ("checkpoint_write_time",
     { name := "Checkpoint Write Time",
       query := "rate(pg_stat_bgwriter_checkpoint_write_time_total[5m])",
       description := "Time spent writing checkpoint files",
       unit := "ms/s" }),
    ("rows_inserted",
     { name := "Rows Inserted",
       query := "rate(pg_stat_database_tup_inserted\x7bdatname=\x27testdb\x27\x7d[5m])",
       description := "Rate of rows inserted per second",
       unit := "rows/s" }),
    ("rows_updated",
     { name := "Rows Updated",
       query := "rate(pg_stat_database_tup_updated\x7bdatname=\x27testdb\x27\x7d[5m])",
       description := "Rate of rows updated per second",
       unit := "rows/s" }),
    ("rows_deleted",
     { name := "Rows Deleted",
       query := "rate(pg_stat_database_tup_deleted\x7bdatname=\x27testdb\x27\x7d[5m])",
       description := "Rate of rows deleted per second",
       unit := "rows/s" }),
    ("dead_tuples",
     { name := "Dead Tuples",
       query := "pg_stat_user_tables_n_dead_tup",
       description := "Number of dead tuples needing vacuum",
       unit := "tuples", threshold_warning := some 10000, threshold_critical := some 100000 }),
    ("replication_lag",
     { name := "Replication Lag",
       query := "pg_replication_lag",
       description := "Replication lag in seconds",
       unit := "seconds", threshold_warning := some 30, threshold_critical := some 120 }),
    ("database_size",
     { name := "Database Size",
       query := "pg_database_size_bytes\x7bdatname=\x27testdb\x27\x7d",
       description := "Size of the database in bytes",
       unit := "bytes" }),
    ("cpu_load1",
     { name := "CPU Load (1m)",
       query := "node_load1",
       description := "System load average over the last 1 minute",
       unit := "load" }),
    ("cpu_load5",
     { name := "CPU Load (5m)",
       query := "node_load5",
       description := "System load average over the last 5 minutes",
       unit := "load" }),
    ("cpu_load15",
     { name := "CPU Load (15m)",
       query := "node_load15",
       description := "System load average over the last 15 minutes",
       unit := "load" }),
    ("cpu_utilization",
     { name := "CPU Utilization",
       query := "100 - (avg by(instance)(irate(node_cpu_seconds_total\x7bmode=\x27idle\x27\x7d[5m])) * 100)",
       description := "Total CPU utilization percentage",
       unit := "percent", threshold_warning := some 70, threshold_critical := some 90 }),
    ("cpu_utilization_user",
     { name := "CPU Utilization (User)",
       query := "avg by(instance)(irate(node_cpu_seconds_total\x7bmode=\x27user\x27\x7d[5m])) * 100",
       description := "CPU time spent in user mode",
       unit := "percent" }),
    ("cpu_utilization_iowait",
     { name := "CPU Utilization (I/O Wait)",
       query := "avg by(instance)(irate(node_cpu_seconds_total\x7bmode=\x27iowait\x27\x7d[5m])) * 100",
       description := "CPU time spent waiting for I/O",
       unit := "percent", threshold_warning := some 10, threshold_critical := some 25 }),
    ("memory_utilization",
     { name := "Memory Utilization",
       query := "((node_memory_MemTotal_bytes - node_memory_MemAvailable_bytes) / node_memory_MemTotal_bytes) * 100",
       description := "Percentage of system memory in use",
       unit := "percent", threshold_warning := some 80, threshold_critical := some 95 }),
    ("table_size",
     { name := "Table Size",
       query := "pg_stat_user_tables_total_size_bytes\x7bdatname=\x27testdb\x27\x7d",
       description := "Total size of table including indexes",
       unit := "bytes" }),
    ("sequential_scans",
     { name := "Sequential Scans",
       query := "rate(pg_stat_user_tables_seq_scan\x7bdatname=\x27testdb\x27\x7d[5m])",
       description := "Rate of sequential scans per second",
       unit := "scans/s" }),
    ("index_scans",
     { name := "Index Scans",
       query := "rate(pg_stat_user_tables_idx_scan\x7bdatname=\x27testdb\x27\x7d[5m])",
       description := "Rate of index scans per second",
       unit := "scans/s" }),
    ("query_execution_time",
     { name := "Query Execution Time",
       query := "rate(pg_stat_statements_total_time_seconds\x7bdatname=\x27testdb\x27\x7d[5m])",
       description := "Total time spent executing queries",
       unit := "seconds/s" }),
    ("query_calls",
     { name := "Query Calls",
       query := "rate(pg_stat_statements_calls\x7bdatname=\x27testdb\x27\x7d[5m])",
       description := "Rate of query executions",
       unit := "calls/s" }),
    ("query_mean_time",
     { name := "Mean Query Time",
       query := "sum(rate(pg_stat_statements_total_time_seconds\x7bdatname=\x27testdb\x27\x7d[5m])) / sum(rate(pg_stat_statements_calls\x7bdatname=\x27testdb\x27\x7d[5m]))",
       description := "Average time per query execution",
       unit := "seconds" }) ]

/-- Embeds `PromQLBuilder.get_metric`. -/
def getMetric (metric_name : String) : Option MetricQuery :=
  METRICS.lookup metric_name

/-- Embeds `PromQLBuilder.get_health_check_metrics`. -/
def healthCheckMetrics : List String :=
  [ "connection_utilization", "buffer_cache_hit_ratio", "transaction_wraparound",
    "waiting_locks", "backend_writes", "dead_tuples", "cpu_utilization",
    "memory_utilization", "cpu_load1" ]

/-- Embeds `PromQLBuilder.get_incident_metrics`. -/
def incidentMetrics : List String :=
  [ "active_connections", "total_connections", "connection_utilization",
    "transactions_committed", "transactions_rolled_back", "locks_total",
    "exclusive_locks", "waiting_locks", "buffer_cache_hit_ratio", "blocks_read",
    "backend_writes", "rows_inserted", "rows_updated", "dead_tuples",
    "cpu_utilization", "cpu_utilization_iowait", "memory_utilization",
    "cpu_load1", "table_size", "sequential_scans", "index_scans",
    "query_mean_time" ]

/-!
### Current metric value and thresholds

Embeds `ToolExecutor._get_current_metric_value` and
`ToolExecutor._get_health_summary` (src/chatbot/tools.py).  The
Prometheus instant query is an oracle mapping a query string to a
response.  A response value of `none` models a missing or `"NaN"`
sample (the source maps those to `None`); well-formed numeric strings
are idealized as exact rationals.  `Except.error` models the
error-tagged result dictionaries (`{"error": ...}`), which are values,
not exceptions.
-/

/-- One element of `data.result` in an instant-query response. -/
structure PromInstantItem where
  labels : List (String × String)
  value : Option ℚ
  ts : ℚ
deriving DecidableEq

/-- An instant-query response: `status == "success"` plus `data.result`. -/
structure PromResp where
  success : Bool
  items : List PromInstantItem
deriving DecidableEq

/-- One entry of `current_values`. -/
structure CurrentSample where
  labels : List (String × String)
  value : Option ℚ
  ts : ℚ
deriving DecidableEq

/-- The success shape of `_get_current_metric_value`. -/
structure CurrentValueResult where
  metric_name : String
  description : String
  unit : String
  current_values : List CurrentSample
  threshold_status : String
  threshold_warning : Option ℚ
  threshold_critical : Option ℚ
deriving DecidableEq

/-- Python truthiness of an optional number (`if v["value"] and ...`):
`None` and `0` are falsy. -/
def truthyVal : Option ℚ → Bool
  | none => false
  | some x => x ≠ 0

/-- Python truthiness of an optional threshold
(`if metric.threshold_critical and ...`). -/
def truthyOpt : Option ℚ → Bool
  | none => false
  | some x => x ≠ 0

/-- The threshold loop: `break` on the first critical sample; the
`elif` arm overwrites the status with `"warning"` and keeps scanning. -/
def statusLoop (crit : ℚ) (warn : Option ℚ) : List CurrentSample → String → String
  | [], st => st
  | v :: rest, st =>
    if truthyVal v.value ∧ v.value.getD 0 ≥ crit then "critical"
    else if truthyVal v.value ∧ truthyOpt warn ∧ v.value.getD 0 ≥ warn.getD 0 then
      statusLoop crit warn rest "warning"
    else statusLoop crit warn rest st

/-- The threshold check of `_get_current_metric_value`: runs only when
`metric.threshold_critical` is truthy and `values` is nonempty. -/
def thresholdStatus (metric : MetricQuery) (values : List CurrentSample) : String :=
  match metric.threshold_critical with
  | none => "normal"
  | some crit =>
    if crit = 0 ∨ values = [] then "normal"
    else statusLoop crit metric.threshold_warning values "normal"

/-- Embeds `_get_current_metric_value`, with the instant query supplied as an
oracle from query strings to responses. -/
def getCurrentMetricValue (prom : String → PromResp) (metric_name : String) :
    Except String CurrentValueResult :=
  match getMetric metric_name with
  | none => .error ("Unknown metric: " ++ metric_name)
  | some metric =>
    if (prom metric.query).success then
      .ok { metric_name := metric_name,
            description := metric.description,
            unit := metric.unit,
            current_values := (prom metric.query).items.map fun it =>
              ({ labels := it.labels, value := it.value, ts := it.ts } : CurrentSample),
            threshold_status := thresholdStatus metric
              ((prom metric.query).items.map fun it =>
                ({ labels := it.labels, value := it.value, ts := it.ts } : CurrentSample)),
            threshold_warning := metric.threshold_warning,
            threshold_critical := metric.threshold_critical }
    else .error "Query failed"

/-- The accumulating state of `_get_health_summary`
(`{"status": ..., "metrics": ..., "alerts": ...}`). -/
structure HealthSummary where
  status : String
  metrics : List (String × CurrentValueResult)
  alerts : List String
deriving DecidableEq

/-- One iteration of the health-summary loop over a health-check
metric: error results are skipped; a critical result forces the status
to `"critical"`; a warning result escalates only a `"healthy"` status. -/
def summaryStep (prom : String → PromResp) (acc : HealthSummary) (metric_name : String) :
    HealthSummary :=
  match getCurrentMetricValue prom metric_name with
  | .error _ => acc
  | .ok r =>
    let acc1 := { acc with metrics := acc.metrics ++ [(metric_name, r)] }
    if r.threshold_status = "critical" then
      { acc1 with status := "critical", alerts := acc1.alerts ++ ["CRITICAL: " ++ metric_name] }
    else if r.threshold_status = "warning" ∧ acc1.status = "healthy" then
      { acc1 with status := "warning", alerts := acc1.alerts ++ ["WARNING: " ++ metric_name] }
    else acc1

/-- Embeds `_get_health_summary`. -/
def getHealthSummary (prom : String → PromResp) : HealthSummary :=
  healthCheckMetrics.foldl (summaryStep prom) ⟨"healthy", [], []⟩

/-- Rank of an overall status on the healthy → warning → critical
escalation scale (any other string ranks lowest). -/
def statusRank (st : String) : Nat :=
  if st = "critical" then 2 else if st = "warning" then 1 else 0

/-!
### Tool dispatcher

Embeds `ToolExecutor.execute` (src/chatbot/tools.py).  Result and
argument dictionaries are JSON-like value maps; the eight handler
implementations are abstract behaviors (they call the network), with a
raised exception modeled as `Except.error` carrying `str(e)`.
-/

/-- A JSON-like value (tool arguments, tool results). -/
inductive JVal where
  | s : String → JVal
  | num : Int → JVal
  | b : Bool → JVal
  | null : JVal
  | obj : List (String × JVal) → JVal
  | arr : List JVal → JVal

/-- A result dictionary. -/
abbrev RMap : Type := List (String × JVal)

/-- A parsed argument dictionary (`json.loads` output). -/
abbrev Args : Type := List (String × JVal)

/-- Embeds `{"error": str(e)}` / `{"error": f"Unknown tool: {tool_name}"}`. -/
def errorResult (e : String) : RMap := [("error", JVal.s e)]

/-- Interpolation of a value into an f-string; the rendering of nested
containers is abstracted (no claim depends on it). -/
def jvalStr : JVal → String
  | .s str => str
  | .num i => toString i
  | .b true => "True"
  | .b false => "False"
  | .null => "None"
  | .obj _ => "<dict>"
  | .arr _ => "<list>"

/-- The eight handler behaviors behind the `handlers` mapping of
`ToolExecutor.execute`.  A handler raising (including a `TypeError`
from keyword-argument binding) is `Except.error`. -/
structure ToolHandlers where
  query_prometheus_metric : Args → Except String RMap
  get_current_metric_value : Args → Except String RMap
  analyze_metric_anomalies : Args → Except String RMap
  get_health_summary : Args → Except String RMap
  correlate_metrics : Args → Except String RMap
  get_metric_info : Args → Except String RMap
  list_available_metrics : Args → Except String RMap
  generate_incident_report : Args → Except String RMap

/-- Embeds `handlers.get(tool_name)`: the dictionary literal of
`ToolExecutor.execute`, in source order. -/
def lookupHandler (h : ToolHandlers) (tool_name : String) :
    Option (Args → Except String RMap) :=
  if tool_name = "query_prometheus_metric" then some h.query_prometheus_metric
  else if tool_name = "get_current_metric_value" then some h.get_current_metric_value
  else if tool_name = "analyze_metric_anomalies" then some h.analyze_metric_anomalies
  else if tool_name = "get_health_summary" then some h.get_health_summary
  else if tool_name = "correlate_metrics" then some h.correlate_metrics
  else if tool_name = "get_metric_info" then some h.get_metric_info
  else if tool_name = "list_available_metrics" then some h.list_available_metrics
  else if tool_name = "generate_incident_report" then some h.generate_incident_report
  else none

/-- The registered tool names. -/
def toolNames : List String :=
  [ "query_prometheus_metric", "get_current_metric_value",
    "analyze_metric_anomalies", "get_health_summary", "correlate_metrics",
    "get_metric_info", "list_available_metrics", "generate_incident_report" ]

/-- Embeds `ToolExecutor.execute`: total — an unknown name and a raising
handler both produce an error-tagged result dictionary. -/
def executeTool (h : ToolHandlers) (tool_name : String) (arguments : Args) : RMap :=
  match lookupHandler h tool_name with
  | none => errorResult ("Unknown tool: " ++ tool_name)
  | some f =>
    match f arguments with
    | .ok r => r
    | .error e => errorResult e

/-- Embeds `PostgresDebugAgent._summarize_result`.  The `total_count` /
`incident` / `type` accesses are unguarded in the source, so a result
missing them raises (`Except.error`). -/
def summarizeResult (r : RMap) : Except String String :=
  match r.lookup "error" with
  | some v => .ok ("Error: " ++ jvalStr v)
  | none =>
  match r.lookup "metric_name" with
  | some v => .ok ("Retrieved " ++ jvalStr v ++ " data")
  | none =>
  match r.lookup "available_metrics" with
  | some _ =>
    (match r.lookup "total_count" with
     | some tc => .ok ("Listed " ++ jvalStr tc ++ " metrics")
     | none => .error "KeyError: total_count")
  | none =>
  match r.lookup "report_type" with
  | some _ =>
    (match r.lookup "incident" with
     | some (JVal.obj fields) =>
       (match fields.lookup "type" with
        | some t => .ok ("Generated " ++ jvalStr t ++ " report")
        | none => .error "KeyError: type")
     | some _ => .error "TypeError: incident value is not a mapping"
     | none => .error "KeyError: incident")
  | none => .ok "Completed"

/-!
### Conversation store

Embeds `HistoryManager` (src/chatbot/history_manager.py).  Disk
persistence is out of scope (writes are swallowed on failure; the
in-memory cache is the observable state), so the store is the cache: a
map from conversation id to history.  A message dictionary is a record;
Python `!=` on the dictionaries is decidable value inequality.
-/

/-- A recorded tool call inside an assistant message (the constant
`"type": "function"` field is omitted as it never varies). -/
structure ToolCallRec where
  id : String
  name : String
  arguments : String
deriving DecidableEq

/-- A conversation message. -/
structure Msg where
  role : String
  content : Option String
  tool_call_id : Option String := none
  tool_calls : List ToolCallRec := []
deriving DecidableEq

/-- The trimming step of `HistoryManager.save_history`. -/
def trimHistory (max_history : Nat) (history : List Msg) : List Msg :=
  if max_history + 1 < history.length then
    let system_prompt : Option Msg :=
      match history with
      | m :: _ => if m.role = "system" then some m else none
      | [] => none
    -- history[-max_history:]: Python slicing keeps the whole list when
    -- max_history = 0 (since -0 == 0)
    let remaining :=
      if max_history = 0 then history else history.drop (history.length - max_history)
    match system_prompt, remaining with
    | some sp, r0 :: rest => if r0 ≠ sp then sp :: r0 :: rest else r0 :: rest
    -- unreachable: remaining is nonempty whenever the length guard holds
    | some _, [] => []
    | none, _ => remaining
  else history

/-- The conversation store (conversation id → saved history). -/
abbrev Store : Type := List (String × List Msg)

/-- Cache update on save. -/
def storeSet (cid : String) (h : List Msg) : Store → Store
  | [] => [(cid, h)]
  | (k, v) :: rest => if k = cid then (cid, h) :: rest else (k, v) :: storeSet cid h rest

/-!
### Orchestration loop

Embeds `PostgresDebugAgent.analyze` (src/chatbot/agent.py).  The
language model is an oracle from the current history to a response;
`json.loads` on a tool call's argument payload is an oracle that can
fail (`Except.error` = the raised `JSONDecodeError`); `json.dumps` is
an oracle serializer.  `Except.error` anywhere models an exception
escaping `analyze`.
-/

/-- Embeds `PostgresDebugAgent.SYSTEM_PROMPT` (content is opaque to every
claim; transcribed abbreviated). -/
def SYSTEM_PROMPT : String :=
  "You are an expert Database Reliability Engineer (DBRE) AI assistant \nspecializing in PostgreSQL performance analysis and incident root cause analysis."

/-- The seeding system message. -/
def systemMsg : Msg := { role := "system", content := some SYSTEM_PROMPT }

/-- One model response: free text and/or requested tool calls
(`message.content`, `message.tool_calls`; an absent/empty list means no
tool calls). -/
structure ModelMsg where
  content : Option String
  tool_calls : List ToolCallRec

/-- One entry of `tool_calls_made`. -/
structure TraceEntry where
  tool : String
  arguments : Args
  result_summary : String

/-- The collaborators of one `analyze` run. -/
structure AgentEnv where
  model : List Msg → ModelMsg
  parseArgs : String → Except String Args
  handlers : ToolHandlers
  dumps : RMap → String

/-- The assistant message recording requested tool calls. -/
def assistantMsg (m : ModelMsg) : Msg :=
  { role := "assistant", content := m.content, tool_calls := m.tool_calls }

/-- The per-iteration tool-execution loop (`for tool_call in
message.tool_calls`), in request order: parse the argument payload
(`json.loads` — unguarded, so a parse failure propagates), dispatch
through `ToolExecutor.execute` (total), record the trace entry, append
the tool-result message. -/
def execCalls (env : AgentEnv) :
    List ToolCallRec → List Msg → List TraceEntry →
    Except String (List Msg × List TraceEntry)
  | [], hist, trace => .ok (hist, trace)
  | c :: rest, hist, trace =>
    match env.parseArgs c.arguments with
    | .error e => .error e
    | .ok args =>
      let result := executeTool env.handlers c.name args
      match summarizeResult result with
      | .error e => .error e
      | .ok summary =>
        execCalls env rest
          (hist ++ [{ role := "tool", content := some (env.dumps result),
                      tool_call_id := some c.id }])
          (trace ++ [⟨c.name, args, summary⟩])

/-- The `while iteration < max_iterations` reasoning loop.  `fuel` is
the remaining iteration budget, `iteration` the count so far; the run
ends with the model's final text, or with `none` when the budget is
exhausted. -/
def runLoop (env : AgentEnv) :
    Nat → Nat → List Msg → List TraceEntry →
    Except String (Option String × Nat × List Msg × List TraceEntry)
  | 0, iteration, hist, trace => .ok (none, iteration, hist, trace)
  | fuel + 1, iteration, hist, trace =>
    match (env.model hist).tool_calls with
    | [] => .ok ((env.model hist).content, iteration + 1, hist, trace)
    | _ :: _ =>
      match execCalls env (env.model hist).tool_calls
              (hist ++ [assistantMsg (env.model hist)]) trace with
      | .error e => .error e
      | .ok ht => runLoop env fuel (iteration + 1) ht.1 ht.2

/-- The structured result of `analyze`. -/
structure AnalyzeResult where
  analysis : Option String
  iterations : Nat
  tool_calls : List TraceEntry
  timestamp : String
  conversation_id : Option String

/-- Embeds `PostgresDebugAgent.analyze`.  `now_iso` stands for both
`datetime.now()` renderings (context annotation and result timestamp).
The iteration ceiling is the literal 6 of the source.  With a
conversation id, the final history is trimmed and saved with the
manager's default `max_history = 20`. -/
def analyze (env : AgentEnv) (store : Store) (user_message : String)
    (conversation_id : Option String) (now_iso : String) :
    Except String (AnalyzeResult × Store) :=
  let history0 :=
    match conversation_id with
    | some cid => (store.lookup cid).getD []
    | none => []
  let history1 := if history0.isEmpty then [systemMsg] else history0
  let context := "\n\nCurrent time: " ++ now_iso ++ "\n\nUser query: " ++ user_message
  let history2 := history1 ++ [{ role := "user", content := some context }]
  match runLoop env 6 0 history2 [] with
  | .error e => .error e
  | .ok out =>
    let finalResponse := out.1
    let hist := out.2.2.1
    let trace := out.2.2.2
    let store1 :=
      match conversation_id with
      | some cid =>
        let h :=
          match finalResponse with
          | some fr => hist ++ [{ role := "assistant", content := some fr }]
          | none => hist
        storeSet cid (trimHistory 20 h) store
      | none => store
    .ok ({ analysis := finalResponse, iterations := out.2.1, tool_calls := trace,
           timestamp := now_iso, conversation_id := conversation_id }, store1)

/-!
### Concrete fixtures for witnesses and counterexamples
-/

/-- A `dateutil` oracle whose calls always raise. -/
def parseEnvNone : ParseEnv := ⟨fun _ => none, fun _ => none⟩

/-- A concrete reference instant: epoch 100000 s, midnight at 86400 s. -/
def refA : RefTime := ⟨100000, 86400⟩

/-- A constant series with a negative value. -/
def constNegSeries : SeriesData := ⟨[], [⟨0, some (-5)⟩, ⟨60, some (-5)⟩]⟩

/-- A constant series with a positive value and one absent sample. -/
def constPosSeries : SeriesData := ⟨[], [⟨0, some 2⟩, ⟨60, some 2⟩, ⟨120, none⟩]⟩

/-- A series whose samples are all absent. -/
def absentSeries : SeriesData := ⟨[("instance", "db1")], [⟨0, none⟩, ⟨60, none⟩]⟩

/-- A concrete leading system message. -/
def sysMsgA : Msg := { role := "system", content := some "sys-instruction" }

/-- Concrete distinct user messages. -/
def userMsgN (n : Nat) : Msg := { role := "user", content := some (toString n) }

/-- Length 8 = 3 + 5 history whose element at index 8 − 3 equals the
leading system message. -/
def histDupSys : List Msg :=
  [sysMsgA, userMsgN 1, userMsgN 2, userMsgN 3, userMsgN 4, sysMsgA,
   userMsgN 6, userMsgN 7]

/-- Length 8 = 3 + 5 history with no duplicate of the system message. -/
def histPlain : List Msg :=
  [sysMsgA, userMsgN 1, userMsgN 2, userMsgN 3, userMsgN 4, userMsgN 5,
   userMsgN 6, userMsgN 7]

/-- Handlers that all raise. -/
def failingHandlers : ToolHandlers :=
  ⟨fun _ => .error "boom", fun _ => .error "boom", fun _ => .error "boom",
   fun _ => .error "boom", fun _ => .error "boom", fun _ => .error "boom",
   fun _ => .error "boom", fun _ => .error "boom"⟩

/-- Handlers that all return an empty result dictionary. -/
def okHandlers : ToolHandlers :=
  ⟨fun _ => .ok [], fun _ => .ok [], fun _ => .ok [], fun _ => .ok [],
   fun _ => .ok [], fun _ => .ok [], fun _ => .ok [], fun _ => .ok []⟩

/-- An agent whose model requests one tool call with a non-JSON
argument payload, so that `json.loads` raises. -/
def envBadJson : AgentEnv :=
  { model := fun _ => ⟨none, [⟨"call_1", "get_health_summary", "not json"⟩]⟩,
    parseArgs := fun _ => .error "Expecting value: line 1 column 1 (char 0)",
    handlers := okHandlers,
    dumps := fun _ => "" }

/-- An agent whose model finalizes at once and whose handlers raise. -/
def envToolError : AgentEnv :=
  { model := fun _ => ⟨some "done", []⟩,
    parseArgs := fun _ => .ok [],
    handlers := failingHandlers,
    dumps := fun _ => "r" }

/-- An agent whose model always requests one well-formed tool call and
never finalizes. -/
def envAlwaysTool : AgentEnv :=
  { model := fun _ => ⟨none, [⟨"c1", "list_available_metrics", "\x7b\x7d"⟩]⟩,
    parseArgs := fun _ => .ok [],
    handlers := okHandlers,
    dumps := fun _ => "r" }

/-- A Prometheus oracle answering every instant query with one sample
of value 99. -/
def prom99 : String → PromResp := fun _ => ⟨true, [⟨[], some 99, 0⟩]⟩

/-- A Prometheus oracle answering every instant query successfully with
no samples. -/
def promEmpty : String → PromResp := fun _ => ⟨true, []⟩

/-- The result `_get_current_metric_value` computes for
`buffer_cache_hit_ratio` under the all-99 oracle. -/
def bufR99 : CurrentValueResult :=
  { metric_name := "buffer_cache_hit_ratio",
    description := "Percentage of requests served from buffer cache",
    unit := "percent",
    current_values := [⟨[], some 99, 0⟩],
    threshold_status := "critical",
    threshold_warning := some 95,
    threshold_critical := some 90 }

/-!
## Theorems

Helper lemmas first, then one theorem (plus witness or counterexample)
per claim.
-/

/-- C1 counterexample: the resolver is not total.  On
`"today 25 to 26"` the day pattern matches with start hour 25 and
`time.replace(hour=25)` raises `ValueError`, escaping `parse`;
the claimed default window is not returned. -/
theorem c1_counterexample :
    timeRangeParse parseEnvNone refA "today 25 to 26"
      = Except.error "hour must be in 0..23" := by
  rfl

/-- C1 (amended): whenever neither the day pattern nor the date-range
pattern matches, `TimeRangeParser.parse` returns a window (it can raise
only through those two patterns' out-of-range hour/minute fields); and
when no pattern matches and free-form fuzzy parsing also fails it
returns exactly the default window `(reference − 3600 s, reference)`. -/
theorem c1_parse_total_and_default (env : ParseEnv) (ref : RefTime) (expr : String)
    (h3 : searchPos match3At (lowerData expr) = none)
    (h4 : searchPos match4At expr.data = none) :
    (∃ w, timeRangeParse env ref expr = .ok w) ∧
    (searchPos match1At (lowerData expr) = none →
     searchPos match2At (lowerData expr) = none →
     env.fuzzyParse expr = none →
     timeRangeParse env ref expr = .ok (ref.epoch - 3600, ref.epoch)) := by
  constructor
  · unfold timeRangeParse
    cases h1 : searchPos match1At (lowerData expr) with
    | some nu =>
      exact ⟨(ref.epoch - (nu.1 : Int) * unitSecs nu.2, ref.epoch), rfl⟩
    | none =>
      cases h2 : searchPos match2At (lowerData expr) with
      | some nu =>
        exact ⟨(ref.epoch - (nu.1 : Int) * unit3Secs nu.2 - 300,
                ref.epoch - (nu.1 : Int) * unit3Secs nu.2 + 300), rfl⟩
      | none =>
        cases h5 : env.fuzzyParse expr with
        | some t =>
          exact ⟨(t - 1800, t + 1800), by rw [h3, h4]⟩
        | none =>
          exact ⟨(ref.epoch - 3600, ref.epoch), by rw [h3, h4]⟩
  · intro h1 h2 h5
    unfold timeRangeParse
    rw [h1, h2, h3, h4, h5]

/-- C1 witness: on `"gibberish not a date"` (no pattern matches, fuzzy
parsing raises) the default window is returned. -/
theorem c1_witness :
    timeRangeParse parseEnvNone refA "gibberish not a date"
      = .ok (100000 - 3600, 100000) :=
  (c1_parse_total_and_default parseEnvNone refA "gibberish not a date"
      (by rfl) (by rfl)).2 (by rfl) (by rfl) (by rfl)

/-- C2 counterexample: `"today 5 to 3"` matches the day pattern and the
resolver emits the inverted window `(midnight + 5 h, midnight + 3 h)` —
it does not fall back. -/
theorem c2_counterexample :
    timeRangeParse parseEnvNone refA "today 5 to 3" = .ok (104400, 97200) ∧
    (97200 : Int) < 104400 := by
  exact ⟨by rfl, by norm_num⟩

/-- C2 (amended): every window produced by the "last N unit" pattern,
the "N unit ago" pattern, the fuzzy fallback or the default branch
satisfies start ≤ end; the day and date-range patterns (excluded by the
hypotheses) can emit inverted windows, e.g. `"today 5 to 3"`. -/
theorem c2_start_le_end (env : ParseEnv) (ref : RefTime) (expr : String)
    (h3 : searchPos match3At (lowerData expr) = none)
    (h4 : searchPos match4At expr.data = none)
    (s e : Int) (hok : timeRangeParse env ref expr = .ok (s, e)) :
    s ≤ e := by
  unfold timeRangeParse at hok
  cases h1 : searchPos match1At (lowerData expr) with
  | some nu =>
    rw [h1] at hok
    simp only [Except.ok.injEq, Prod.mk.injEq] at hok
    obtain ⟨hs, he⟩ := hok
    subst hs he
    have hpos : (0 : Int) ≤ (nu.1 : Int) * unitSecs nu.2 := by
      cases nu.2 <;> simp [unitSecs]
    omega
  | none =>
    rw [h1] at hok
    cases h2 : searchPos match2At (lowerData expr) with
    | some nu =>
      rw [h2] at hok
      simp only [Except.ok.injEq, Prod.mk.injEq] at hok
      omega
    | none =>
      rw [h2, h3, h4] at hok
      cases h5 : env.fuzzyParse expr with
      | some t =>
        rw [h5] at hok
        simp only [Except.ok.injEq, Prod.mk.injEq] at hok
        omega
      | none =>
        rw [h5] at hok
        simp only [Except.ok.injEq, Prod.mk.injEq] at hok
        omega

/-- C2 witness: `"last 30 minutes"` resolves to
`(reference − 1800 s, reference)`, an ordered window. -/
theorem c2_witness :
    timeRangeParse parseEnvNone refA "last 30 minutes" = .ok (98200, 100000) ∧
    (98200 : Int) ≤ 100000 :=
  ⟨by rfl,
   c2_start_le_end parseEnvNone refA "last 30 minutes" (by rfl) (by rfl)
     98200 100000 (by rfl)⟩

/-- C5 counterexample: a history of length `max_history + 5`
(`max_history = 3`) with a leading system message whose element at
index `length − max_history` equals that system message is trimmed to
length `max_history`, not `max_history + 1`: the source compares only
`remaining[0]` and skips the re-prepend. -/
theorem c5_counterexample :
    histDupSys.length = 3 + 5 ∧
    histDupSys.head? = some sysMsgA ∧
    sysMsgA.role = "system" ∧
    trimHistory 3 histDupSys = [sysMsgA, userMsgN 6, userMsgN 7] ∧
    (trimHistory 3 histDupSys).length ≠ 3 + 1 :=
  ⟨rfl, rfl, rfl, by decide, by decide⟩

/-- C5 (amended): for a history longer than `max_history + 1` with a
leading system message (and `max_history > 0`), `save_history` keeps
the last `max_history` messages and re-prepends the leading system
message exactly when the trimmed tail's first element differs from it;
the stored history always starts with (a message equal to) the system
message, with length `max_history + 1` in the re-prepend case and
`max_history` otherwise. -/
theorem c5_trim (maxH : Nat) (history : List Msg) (sys : Msg)
    (hlen : maxH + 1 < history.length) (hmax : 0 < maxH)
    (hhead : history.head? = some sys) (hrole : sys.role = "system") :
    trimHistory maxH history =
      (if (history.drop (history.length - maxH)).head? = some sys
       then history.drop (history.length - maxH)
       else sys :: history.drop (history.length - maxH)) ∧
    (trimHistory maxH history).head? = some sys ∧
    ((history.drop (history.length - maxH)).head? ≠ some sys →
       (trimHistory maxH history).length = maxH + 1) ∧
    ((history.drop (history.length - maxH)).head? = some sys →
       (trimHistory maxH history).length = maxH) := by
  obtain ⟨tl, rfl⟩ : ∃ tl, history = sys :: tl := by
    cases history with
    | nil => simp at hhead
    | cons m tl =>
      have hm : m = sys := by simpa using hhead
      exact ⟨tl, by rw [hm]⟩
  · have hdlen : ((sys :: tl).drop ((sys :: tl).length - maxH)).length = maxH := by
      rw [List.length_drop]
      simp only [List.length_cons] at hlen ⊢
      omega
    cases hd : (sys :: tl).drop ((sys :: tl).length - maxH) with
    | nil =>
      rw [hd] at hdlen
      simp at hdlen
      omega
    | cons r0 rest' =>
      rw [hd] at hdlen
      simp only [List.length_cons] at hdlen
      have hne : ¬ maxH = 0 := by omega
      have htrim : trimHistory maxH (sys :: tl)
          = if r0 ≠ sys then sys :: r0 :: rest' else r0 :: rest' := by
        unfold trimHistory
        rw [if_pos hlen]
        simp only [hrole, if_pos, hne, ite_false, hd]
      rw [htrim]
      by_cases hr : r0 = sys
      · subst hr
        refine ⟨by simp, by simp, ?_, ?_⟩
        · intro hcon
          simp at hcon
        · intro _
          simp only [ne_eq, not_true_eq_false, ite_false, List.length_cons]
          omega
      · refine ⟨by simp [hr], by simp [hr], ?_, ?_⟩
        · intro _
          simp only [ne_eq, hr, not_false_eq_true, ite_true, List.length_cons]
          omega
        · intro hcon
          simp [hr] at hcon

/-- C5 witness: on a plain length-8 history with `max_history = 3` the
stored history has length 4 and starts with the system message. -/
theorem c5_witness :
    (trimHistory 3 histPlain).length = 3 + 1 ∧
    (trimHistory 3 histPlain).head? = some sysMsgA :=
  ⟨(c5_trim 3 histPlain sysMsgA (by decide) (by decide) (by rfl) (by rfl)).2.2.1
     (by decide),
   (c5_trim 3 histPlain sysMsgA (by decide) (by decide) (by rfl) (by rfl)).2.1⟩

/-- C6 (confirmed): `ToolExecutor.execute` is total by construction (it
returns a result dictionary, never raising); a name outside the handler
registry yields `{"error": "Unknown tool: ..."}` and a handler that
raises yields `{"error": str(e)}`. -/
theorem c6_execute_total (h : ToolHandlers) (tool_name : String) (args : Args) :
    (tool_name ∉ toolNames →
       executeTool h tool_name args = errorResult ("Unknown tool: " ++ tool_name)) ∧
    (∀ f e, lookupHandler h tool_name = some f → f args = .error e →
       executeTool h tool_name args = errorResult e) := by
  constructor
  · intro hn
    simp only [toolNames, List.mem_cons, List.not_mem_nil, or_false] at hn
    push_neg at hn
    obtain ⟨n1, n2, n3, n4, n5, n6, n7, n8⟩ := hn
    have hl : lookupHandler h tool_name = none := by
      simp [lookupHandler, n1, n2, n3, n4, n5, n6, n7, n8]
    simp [executeTool, hl]
  · intro f e hl hf
    simp [executeTool, hl, hf]

/-- C6 witness: an unregistered name produces the unknown-tool error
result; a registered handler that raises produces the error-tagged
shape with the exception text. -/
theorem c6_witness :
    executeTool failingHandlers "bogus_tool" []
      = errorResult "Unknown tool: bogus_tool" ∧
    executeTool failingHandlers "get_health_summary" [] = errorResult "boom" :=
  ⟨(c6_execute_total failingHandlers "bogus_tool" []).1 (by decide),
   (c6_execute_total failingHandlers "get_health_summary" []).2
     failingHandlers.get_health_summary "boom" rfl rfl⟩

/-- The status rank never exceeds the rank of `"critical"`. -/
theorem statusRank_le_two (st : String) : statusRank st ≤ 2 := by
  unfold statusRank
  split_ifs <;> omega

/-- One summary step never lowers the status rank. -/
theorem summaryStep_rank_mono (prom : String → PromResp) (acc : HealthSummary)
    (name : String) :
    statusRank acc.status ≤ statusRank (summaryStep prom acc name).status := by
  unfold summaryStep
  cases getCurrentMetricValue prom name with
  | error e => exact le_refl _
  | ok r =>
    dsimp only
    split_ifs with h1 h2
    · exact le_trans (statusRank_le_two _) (by simp [statusRank])
    · rw [h2.2]
      simp [statusRank]
    · exact le_refl _

/-- Folding summary steps never lowers the status rank. -/
theorem foldl_summaryStep_rank_mono (prom : String → PromResp) (l : List String) :
    ∀ acc : HealthSummary,
      statusRank acc.status ≤ statusRank ((l.foldl (summaryStep prom) acc)).status := by
  induction l with
  | nil => intro acc; exact le_refl _
  | cons x xs ih =>
    intro acc
    exact le_trans (summaryStep_rank_mono prom acc x) (ih _)

/-- A critical status is absorbing for one summary step. -/
theorem summaryStep_critical (prom : String → PromResp) (acc : HealthSummary)
    (name : String) (h : acc.status = "critical") :
    (summaryStep prom acc name).status = "critical" := by
  unfold summaryStep
  cases getCurrentMetricValue prom name with
  | error e => exact h
  | ok r =>
    dsimp only
    split_ifs with h1 h2
    · rfl
    · exfalso
      have hcon := h2.2
      simp only [h] at hcon
      exact absurd hcon (by decide)
    · exact h

/-- A critical status is absorbing for the whole fold. -/
theorem foldl_summaryStep_critical (prom : String → PromResp) (l : List String) :
    ∀ acc : HealthSummary, acc.status = "critical" →
      ((l.foldl (summaryStep prom) acc)).status = "critical" := by
  induction l with
  | nil => intro acc h; exact h
  | cons x xs ih =>
    intro acc h
    exact ih _ (summaryStep_critical prom acc x h)

/-- Summary steps only append to the alert list. -/
theorem summaryStep_alerts_mono (prom : String → PromResp) (acc : HealthSummary)
    (name : String) (a : String) (h : a ∈ acc.alerts) :
    a ∈ (summaryStep prom acc name).alerts := by
  unfold summaryStep
  cases getCurrentMetricValue prom name with
  | error e => exact h
  | ok r =>
    dsimp only
    split_ifs <;> simp [h]

/-- The fold only appends to the alert list. -/
theorem foldl_summaryStep_alerts_mono (prom : String → PromResp) (l : List String) :
    ∀ (acc : HealthSummary) (a : String), a ∈ acc.alerts →
      a ∈ ((l.foldl (summaryStep prom) acc)).alerts := by
  induction l with
  | nil => intro acc a h; exact h
  | cons x xs ih =>
    intro acc a h
    exact ih _ a (summaryStep_alerts_mono prom acc x a h)

/-- C9 (confirmed): within one health summary the overall status only
escalates along healthy → warning → critical: each aggregation step is
monotone in status rank, a critical status never downgrades, and every
prefix of the health-check fold ranks at or below the final summary
status. -/
theorem c9_health_status_monotone (prom : String → PromResp) :
    (∀ (acc : HealthSummary) (name : String),
       statusRank acc.status ≤ statusRank (summaryStep prom acc name).status) ∧
    (∀ (l : List String) (acc : HealthSummary),
       statusRank acc.status ≤ statusRank ((l.foldl (summaryStep prom) acc)).status) ∧
    (∀ (acc : HealthSummary) (name : String), acc.status = "critical" →
       (summaryStep prom acc name).status = "critical") ∧
    (∀ l1 l2 : List String, healthCheckMetrics = l1 ++ l2 →
       statusRank ((l1.foldl (summaryStep prom) ⟨"healthy", [], []⟩).status) ≤
         statusRank (getHealthSummary prom).status) := by
  refine ⟨summaryStep_rank_mono prom,
          fun l acc => foldl_summaryStep_rank_mono prom l acc,
          fun acc name h => summaryStep_critical prom acc name h,
          fun l1 l2 hsplit => ?_⟩
  rw [getHealthSummary, hsplit, List.foldl_append]
  exact foldl_summaryStep_rank_mono prom l2 _

/-- C9 witness: with an all-empty successful oracle the initial status
ranks at or below the final status, and one step from a critical state
stays critical. -/
theorem c9_witness :
    statusRank (HealthSummary.mk "healthy" [] []).status ≤
      statusRank (getHealthSummary promEmpty).status ∧
    (summaryStep promEmpty ⟨"critical", [], []⟩ "cpu_load1").status = "critical" :=
  ⟨(c9_health_status_monotone promEmpty).2.2.2 [] healthCheckMetrics rfl,
   (c9_health_status_monotone promEmpty).2.2.1 ⟨"critical", [], []⟩ "cpu_load1" rfl⟩

/-- The threshold loop reports critical whenever some sample is truthy
and at or above the critical threshold (the loop never stops before the
first such sample). -/
theorem statusLoop_critical (crit : ℚ) (warn : Option ℚ) :
    ∀ (values : List CurrentSample) (st : String),
      (∃ v ∈ values, ∃ x, v.value = some x ∧ x ≠ 0 ∧ crit ≤ x) →
      statusLoop crit warn values st = "critical" := by
  intro values
  induction values with
  | nil =>
    intro st h
    simp at h
  | cons v rest ih =>
    intro st h
    by_cases h1 : truthyVal v.value ∧ v.value.getD 0 ≥ crit
    · show (if truthyVal v.value ∧ v.value.getD 0 ≥ crit then "critical" else _) = _
      rw [if_pos h1]
    · have hrest : ∃ w ∈ rest, ∃ x, w.value = some x ∧ x ≠ 0 ∧ crit ≤ x := by
        rcases h with ⟨w, hw, x, hx, hx0, hcx⟩
        rcases List.mem_cons.mp hw with hww | hmem
        · exfalso
          apply h1
          subst hww
          rw [hx]
          exact ⟨by simp [truthyVal, hx0], by simpa using hcx⟩
        · exact ⟨w, hmem, x, hx, hx0, hcx⟩
      show (if truthyVal v.value ∧ v.value.getD 0 ≥ crit then "critical" else
            if truthyVal v.value ∧ truthyOpt warn ∧ v.value.getD 0 ≥ warn.getD 0 then
              statusLoop crit warn rest "warning"
            else statusLoop crit warn rest st) = "critical"
      rw [if_neg h1]
      split_ifs with h2
      · exact ih "warning" hrest
      · exact ih st hrest

/-- If the catalog metric has a truthy critical threshold and some
current sample is truthy and at or above it, the reported status is
critical. -/
theorem getCurrentMetricValue_critical (prom : String → PromResp) (name : String)
    (metric : MetricQuery) (hm : getMetric name = some metric)
    (crit : ℚ) (hc : metric.threshold_critical = some crit) (hc0 : ¬ crit = 0)
    (r : CurrentValueResult) (hok : getCurrentMetricValue prom name = .ok r)
    (hex : ∃ v ∈ r.current_values, ∃ x, v.value = some x ∧ x ≠ 0 ∧ crit ≤ x) :
    r.threshold_status = "critical" := by
  unfold getCurrentMetricValue at hok
  rw [hm] at hok
  dsimp only at hok
  by_cases hs : (prom metric.query).success
  · rw [if_pos hs] at hok
    injection hok with hr
    subst hr
    have hvne :
        (prom metric.query).items.map
          (fun it => ({ labels := it.labels, value := it.value, ts := it.ts } :
            CurrentSample)) ≠ [] := by
      rcases hex with ⟨v, hv, -⟩
      intro hnil
      rw [hnil] at hv
      simp at hv
    show thresholdStatus metric _ = "critical"
    unfold thresholdStatus
    rw [hc]
    dsimp only
    rw [if_neg (not_or.mpr ⟨hc0, hvne⟩)]
    exact statusLoop_critical crit metric.threshold_warning _ "normal" hex
  · rw [if_neg hs] at hok
    exact absurd hok (by simp)

/-- Concatenation of a critical buffer-cache result into the health
summary: the overall status becomes and stays critical and the alert
line is emitted. -/
theorem healthSummary_critical_of_buffer (prom : String → PromResp)
    (r : CurrentValueResult)
    (hok : getCurrentMetricValue prom "buffer_cache_hit_ratio" = .ok r)
    (hcrit : r.threshold_status = "critical") :
    (getHealthSummary prom).status = "critical" ∧
    "CRITICAL: buffer_cache_hit_ratio" ∈ (getHealthSummary prom).alerts := by
  have hsplit : getHealthSummary prom
      = (["transaction_wraparound", "waiting_locks", "backend_writes",
          "dead_tuples", "cpu_utilization", "memory_utilization",
          "cpu_load1"]).foldl (summaryStep prom)
          (summaryStep prom
            (summaryStep prom ⟨"healthy", [], []⟩ "connection_utilization")
            "buffer_cache_hit_ratio") := rfl
  have hstep :
      (summaryStep prom
        (summaryStep prom ⟨"healthy", [], []⟩ "connection_utilization")
        "buffer_cache_hit_ratio").status = "critical" ∧
      "CRITICAL: buffer_cache_hit_ratio" ∈
        (summaryStep prom
          (summaryStep prom ⟨"healthy", [], []⟩ "connection_utilization")
          "buffer_cache_hit_ratio").alerts := by
    unfold summaryStep
    rw [hok]
    dsimp only
    rw [if_pos hcrit]
    exact ⟨rfl, by simp⟩
  rw [hsplit]
  exact ⟨foldl_summaryStep_critical prom _ _ hstep.1,
         foldl_summaryStep_alerts_mono prom _ _ _ hstep.2⟩

/-- C10 (confirmed): the buffer-cache-hit-ratio catalog entry has
warning = 95 and critical = 90, the comparison is `value ≥ threshold`
with the critical check first, so every truthy sample ≥ 90 (e.g. a
healthy ratio of 99) is reported critical, and a critical buffer-cache
result forces the health summary to critical with the corresponding
alert. -/
theorem c10_buffer_cache_inverted_thresholds :
    ((getMetric "buffer_cache_hit_ratio").map (fun m => m.threshold_warning)
        = some (some 95) ∧
     (getMetric "buffer_cache_hit_ratio").map (fun m => m.threshold_critical)
        = some (some 90)) ∧
    (∀ (prom : String → PromResp) (r : CurrentValueResult),
       getCurrentMetricValue prom "buffer_cache_hit_ratio" = .ok r →
       (∃ v ∈ r.current_values, ∃ x, v.value = some x ∧ (90 : ℚ) ≤ x) →
       r.threshold_status = "critical") ∧
    (∀ (prom : String → PromResp) (r : CurrentValueResult),
       getCurrentMetricValue prom "buffer_cache_hit_ratio" = .ok r →
       r.threshold_status = "critical" →
       (getHealthSummary prom).status = "critical" ∧
       "CRITICAL: buffer_cache_hit_ratio" ∈ (getHealthSummary prom).alerts) := by
  refine ⟨⟨rfl, rfl⟩, ?_, ?_⟩
  · intro prom r hok hex
    refine getCurrentMetricValue_critical prom "buffer_cache_hit_ratio" _ rfl
      90 rfl (by norm_num) r hok ?_
    rcases hex with ⟨v, hv, x, hx, hge⟩
    exact ⟨v, hv, x, hx, by positivity, hge⟩
  · intro prom r hok hcrit
    exact healthSummary_critical_of_buffer prom r hok hcrit

/-- C10 witness: an oracle reporting 99 everywhere yields a critical
buffer-cache status that propagates to a critical health summary. -/
theorem c10_witness :
    (getCurrentMetricValue prom99 "buffer_cache_hit_ratio").map
        (fun r => r.threshold_status) = .ok "critical" ∧
    (getHealthSummary prom99).status = "critical" ∧
    "CRITICAL: buffer_cache_hit_ratio" ∈ (getHealthSummary prom99).alerts := by
  have hok : getCurrentMetricValue prom99 "buffer_cache_hit_ratio" = .ok bufR99 := by
    rfl
  have hcrit : bufR99.threshold_status = "critical" :=
    (c10_buffer_cache_inverted_thresholds).2.1 prom99 bufR99 hok
      ⟨⟨[], some 99, 0⟩, by simp [bufR99], 99, rfl, by norm_num⟩
  have hsum := (c10_buffer_cache_inverted_thresholds).2.2 prom99 bufR99 hok hcrit
  refine ⟨?_, hsum.1, hsum.2⟩
  rw [hok]
  show Except.ok bufR99.threshold_status = .ok "critical"
  rw [hcrit]

/-- C4 counterexample: a query result with one series whose samples are
all absent yields an `anomaly_analysis` with no entry for that series
(the `continue` branch), not a zero-statistics report. -/
theorem c4_counterexample :
    analyzeMetricAnomalies "cpu_load1" 0 3600 (.ok [absentSeries])
      = .ok ⟨"cpu_load1", 0, 3600, []⟩ := by
  rfl

/-- C4 (amended): a degenerate series (no present numeric values) is
skipped — it contributes no report — and the analysis itself returns
normally with the remaining series' reports; callers see an omission,
not a failure and not a zero-statistics report. -/
theorem c4_degenerate_series_skipped (name : String) (a b : Int)
    (series : List SeriesData) :
    (∀ s : SeriesData, presentValues s = [] → analyzeSeries s = none) ∧
    analyzeMetricAnomalies name a b (.ok series)
      = .ok ⟨name, a, b, series.filterMap analyzeSeries⟩ := by
  constructor
  · intro s hs
    unfold analyzeSeries
    rw [hs]
    rfl
  · rfl

/-- C4 witness: the all-absent series produces no report. -/
theorem c4_witness : analyzeSeries absentSeries = none :=
  (c4_degenerate_series_skipped "cpu_load1" 0 3600 []).1 absentSeries (by rfl)

/-- Dropping absent samples does not change the present-value list. -/
theorem filterMap_value_filter_isSome (l : List RangeSample) :
    (l.filter (fun p => p.value.isSome)).filterMap (fun p => p.value)
      = l.filterMap (fun p => p.value) := by
  induction l with
  | nil => rfl
  | cons p rest ih =>
    cases h : p.value with
    | none => simp [List.filter_cons, h, ih]
    | some v => simp [List.filter_cons, h, ih]

/-- Dropping absent samples does not change any sample scan that
ignores absent samples. -/
theorem filterMap_skip_none {β : Type} (f : RangeSample → Option β)
    (hf : ∀ p, p.value = none → f p = none) (l : List RangeSample) :
    (l.filter (fun p => p.value.isSome)).filterMap f = l.filterMap f := by
  induction l with
  | nil => rfl
  | cons p rest ih =>
    cases h : p.value with
    | none => simp [List.filter_cons, h, hf p h, ih]
    | some v => simp [List.filter_cons, List.filterMap_cons, h, ih]

/-- Membership in the (untruncated) spike list: exactly the present
samples strictly above `mean + 2·stddev`, with the recorded deviation
score. -/
theorem mem_spikesOf (s : SeriesData) (t : Int) (v d : ℝ) :
    (⟨t, v, d⟩ : AnomalyPoint) ∈ spikesOf s ↔
      (⟨t, some v⟩ : RangeSample) ∈ s.values ∧ v > thresholdHigh s ∧
        d = (if seriesStd s > 0 then (v - seriesAvg s) / seriesStd s else 0) := by
  unfold spikesOf
  rw [List.mem_filterMap]
  constructor
  · rintro ⟨⟨pt, pv⟩, hp, hep⟩
    cases hv : pv with
    | none =>
      rw [hv] at hep
      simp at hep
    | some w =>
      rw [hv] at hep
      dsimp only at hep
      by_cases hgt : w > thresholdHigh s
      · rw [if_pos hgt] at hep
        simp only [Option.some.injEq, AnomalyPoint.mk.injEq] at hep
        obtain ⟨h1, h2, h3⟩ := hep
        subst h1 h2
        rw [hv] at hp
        exact ⟨hp, hgt, h3.symm⟩
      · rw [if_neg hgt] at hep
        simp at hep
  · rintro ⟨hmem, hgt, hd⟩
    refine ⟨⟨t, some v⟩, hmem, ?_⟩
    dsimp only
    rw [if_pos hgt, hd]

/-- Membership in the (untruncated) drop list: the `elif` arm — present
samples not above the high threshold and strictly below the low one,
with the recorded deviation score. -/
theorem mem_dropsOf (s : SeriesData) (t : Int) (v d : ℝ) :
    (⟨t, v, d⟩ : AnomalyPoint) ∈ dropsOf s ↔
      (⟨t, some v⟩ : RangeSample) ∈ s.values ∧ ¬ v > thresholdHigh s ∧
        v < thresholdLow s ∧
        d = (if seriesStd s > 0 then (seriesAvg s - v) / seriesStd s else 0) := by
  unfold dropsOf
  rw [List.mem_filterMap]
  constructor
  · rintro ⟨⟨pt, pv⟩, hp, hep⟩
    cases hv : pv with
    | none =>
      rw [hv] at hep
      simp at hep
    | some w =>
      rw [hv] at hep
      dsimp only at hep
      by_cases hgt : w > thresholdHigh s
      · rw [if_pos hgt] at hep
        simp at hep
      · rw [if_neg hgt] at hep
        by_cases hlt : w < thresholdLow s
        · rw [if_pos hlt] at hep
          simp only [Option.some.injEq, AnomalyPoint.mk.injEq] at hep
          obtain ⟨h1, h2, h3⟩ := hep
          subst h1 h2
          rw [hv] at hp
          exact ⟨hp, hgt, hlt, h3.symm⟩
        · rw [if_neg hlt] at hep
          simp at hep
  · rintro ⟨hmem, hgt, hlt, hd⟩
    refine ⟨⟨t, some v⟩, hmem, ?_⟩
    dsimp only
    rw [if_neg hgt, if_pos hlt, hd]

/-- When the standard deviation is zero every recorded deviation score
is zero. -/
theorem deviation_zero_of_std_zero (s : SeriesData) (hstd : seriesStd s = 0) :
    ∀ a ∈ spikesOf s ++ dropsOf s, a.deviation = 0 := by
  intro a ha
  rcases List.mem_append.mp ha with h | h
  · have hd := ((mem_spikesOf s a.timestamp a.value a.deviation).mp h).2.2
    rw [hd, hstd]
    simp
  · have hd := ((mem_dropsOf s a.timestamp a.value a.deviation).mp h).2.2.2
    rw [hd, hstd]
    simp

/-- The whole per-series analysis is invariant under removing absent
samples: statistics and anomaly detection see only present values. -/
theorem analyzeSeries_ignores_absent (s : SeriesData) :
    analyzeSeries ⟨s.labels, s.values.filter (fun p => p.value.isSome)⟩
      = analyzeSeries s := by
  have hpv : presentValues ⟨s.labels, s.values.filter (fun p => p.value.isSome)⟩
      = presentValues s := filterMap_value_filter_isSome s.values
  have havg : seriesAvg ⟨s.labels, s.values.filter (fun p => p.value.isSome)⟩
      = seriesAvg s := by
    unfold seriesAvg
    rw [hpv]
  have hvar : seriesVariance ⟨s.labels, s.values.filter (fun p => p.value.isSome)⟩
      = seriesVariance s := by
    unfold seriesVariance
    rw [hpv, havg]
  have hstd : seriesStd ⟨s.labels, s.values.filter (fun p => p.value.isSome)⟩
      = seriesStd s := by
    unfold seriesStd
    rw [hvar]
  have hmax : seriesMax ⟨s.labels, s.values.filter (fun p => p.value.isSome)⟩
      = seriesMax s := by
    unfold seriesMax
    rw [hpv]
  have hmin : seriesMin ⟨s.labels, s.values.filter (fun p => p.value.isSome)⟩
      = seriesMin s := by
    unfold seriesMin
    rw [hpv]
  have hhi : thresholdHigh ⟨s.labels, s.values.filter (fun p => p.value.isSome)⟩
      = thresholdHigh s := by
    unfold thresholdHigh
    rw [havg, hstd]
  have hlo : thresholdLow ⟨s.labels, s.values.filter (fun p => p.value.isSome)⟩
      = thresholdLow s := by
    unfold thresholdLow
    rw [havg, hstd]
  have hspk : spikesOf ⟨s.labels, s.values.filter (fun p => p.value.isSome)⟩
      = spikesOf s := by
    unfold spikesOf
    rw [hhi, hstd, havg]
    exact filterMap_skip_none _ (fun p hp => by rw [hp]) s.values
  have hdrp : dropsOf ⟨s.labels, s.values.filter (fun p => p.value.isSome)⟩
      = dropsOf s := by
    unfold dropsOf
    rw [hhi, hlo, hstd, havg]
    exact filterMap_skip_none _ (fun p hp => by rw [hp]) s.values
  unfold analyzeSeries
  rw [hpv, havg, hmax, hmin, hstd, hspk, hdrp]

/-- A constant series with a nonnegative value has zero standard
deviation and `has_anomalies = false`. -/
theorem constant_series_no_anomalies (s : SeriesData) (c : ℝ) (hc : 0 ≤ c)
    (hne : presentValues s ≠ []) (hall : ∀ v ∈ presentValues s, v = c) :
    seriesStd s = 0 ∧
    (analyzeSeries s).map (fun r => r.has_anomalies) = some false := by
  have hlen : (presentValues s).length ≠ 0 := by
    intro h
    exact hne (List.length_eq_zero.mp h)
  have hsum : (presentValues s).sum = ((presentValues s).length : ℝ) * c := by
    rw [List.sum_eq_card_nsmul (presentValues s) c hall, nsmul_eq_mul]
  have havg : seriesAvg s = c := by
    unfold seriesAvg
    rw [hsum]
    exact mul_div_cancel_left₀ c (Nat.cast_ne_zero.mpr hlen)
  have hvar : seriesVariance s = 0 := by
    unfold seriesVariance
    have hmap : (presentValues s).map (fun x => (x - seriesAvg s) ^ 2)
        = (presentValues s).map (fun _ => (0 : ℝ)) := by
      apply List.map_congr_left
      intro x hx
      rw [hall x hx, havg]
      ring
    rw [hmap]
    simp
  have hstd : seriesStd s = 0 := by
    unfold seriesStd
    rw [hvar]
    exact Real.sqrt_zero
  have hhi : thresholdHigh s = c := by
    unfold thresholdHigh
    rw [havg, hstd]
    ring
  have hval : ∀ p ∈ s.values, ∀ w, p.value = some w → w = c := by
    intro p hp w hw
    exact hall w (List.mem_filterMap.mpr ⟨p, hp, hw⟩)
  have hspk : spikesOf s = [] := by
    unfold spikesOf
    rw [List.filterMap_eq_nil_iff]
    intro p hp
    cases hv : p.value with
    | none => rfl
    | some w =>
      dsimp only
      rw [if_neg]
      rw [hval p hp w hv, hhi]
      exact lt_irrefl c
  have hdrp : dropsOf s = [] := by
    unfold dropsOf
    rw [List.filterMap_eq_nil_iff]
    intro p hp
    cases hv : p.value with
    | none => rfl
    | some w =>
      dsimp only
      rw [hval p hp w hv, hhi, if_neg (lt_irrefl c)]
      rw [if_neg]
      unfold thresholdLow
      rw [havg, hstd]
      by_cases hc0 : c - 2 * 0 > 0
      · rw [if_pos hc0]
        norm_num
      · rw [if_neg hc0]
        exact not_lt.mpr hc
  refine ⟨hstd, ?_⟩
  unfold analyzeSeries
  rw [if_neg (by simpa [List.isEmpty_iff] using hne)]
  rw [hspk, hdrp]
  rfl

/-- C3 counterexample: the constant series of value −5 has zero
standard deviation, yet every sample satisfies the drop condition
(`threshold_low` is clamped to 0 > −5), so `has_anomalies = true` —
contradicting the claim that a constant series has no anomalies (its
deviation scores are 0 as claimed). -/
theorem c3_counterexample :
    (∀ v ∈ presentValues constNegSeries, v = (-5 : ℝ)) ∧
    seriesStd constNegSeries = 0 ∧
    (analyzeSeries constNegSeries).map (fun r => r.has_anomalies) = some true := by
  have hpv : presentValues constNegSeries = [(-5 : ℝ), -5] := rfl
  have havg : seriesAvg constNegSeries = -5 := by
    unfold seriesAvg
    rw [hpv]
    norm_num
  have hvar : seriesVariance constNegSeries = 0 := by
    unfold seriesVariance
    rw [hpv, havg]
    norm_num
  have hstd : seriesStd constNegSeries = 0 := by
    unfold seriesStd
    rw [hvar]
    exact Real.sqrt_zero
  have hhi : thresholdHigh constNegSeries = -5 := by
    unfold thresholdHigh
    rw [havg, hstd]
    ring
  have hlo : thresholdLow constNegSeries = 0 := by
    unfold thresholdLow
    rw [havg, hstd]
    norm_num
  have hdrp : dropsOf constNegSeries = [⟨0, -5, 0⟩, ⟨60, -5, 0⟩] := by
    unfold dropsOf
    rw [hhi, hlo, hstd]
    show List.filterMap _ constNegSeries.values = _
    rw [show constNegSeries.values = [⟨0, some (-5)⟩, ⟨60, some (-5)⟩] from rfl]
    norm_num [List.filterMap]
  refine ⟨?_, hstd, ?_⟩
  · intro v hv
    rw [hpv] at hv
    rcases List.mem_cons.mp hv with h | h
    · exact h
    · simpa using h
  · unfold analyzeSeries
    rw [if_neg (by rw [hpv]; simp)]
    rw [hdrp]
    simp

/-- C3 (amended): statistics and detection are computed over present
values only (absent samples are ignored entirely); the low threshold is
`max(0, mean − 2·stddev)`; a sample qualifies as a spike iff
`value > mean + 2·stddev`, and as a drop iff it is **not** a spike and
`value < max(0, mean − 2·stddev)` (the source's `elif`); when
`stddev = 0` every deviation score is 0; and a constant series whose
value is **nonnegative** has `stddev = 0` and `has_anomalies = false`
(a constant negative series is flagged as all drops). -/
theorem c3_anomaly_detection (s : SeriesData) :
    (analyzeSeries ⟨s.labels, s.values.filter (fun p => p.value.isSome)⟩
       = analyzeSeries s) ∧
    (thresholdLow s = max 0 (seriesAvg s - 2 * seriesStd s)) ∧
    (∀ (t : Int) (v d : ℝ), (⟨t, v, d⟩ : AnomalyPoint) ∈ spikesOf s ↔
       (⟨t, some v⟩ : RangeSample) ∈ s.values ∧ v > thresholdHigh s ∧
         d = (if seriesStd s > 0 then (v - seriesAvg s) / seriesStd s else 0)) ∧
    (∀ (t : Int) (v d : ℝ), (⟨t, v, d⟩ : AnomalyPoint) ∈ dropsOf s ↔
       (⟨t, some v⟩ : RangeSample) ∈ s.values ∧ ¬ v > thresholdHigh s ∧
         v < thresholdLow s ∧
         d = (if seriesStd s > 0 then (seriesAvg s - v) / seriesStd s else 0)) ∧
    (seriesStd s = 0 → ∀ a ∈ spikesOf s ++ dropsOf s, a.deviation = 0) ∧
    (∀ c : ℝ, 0 ≤ c → presentValues s ≠ [] → (∀ v ∈ presentValues s, v = c) →
       seriesStd s = 0 ∧
       (analyzeSeries s).map (fun r => r.has_anomalies) = some false) := by
  refine ⟨analyzeSeries_ignores_absent s, ?_, mem_spikesOf s, mem_dropsOf s,
          deviation_zero_of_std_zero s,
          fun c hc hne hall => constant_series_no_anomalies s c hc hne hall⟩
  unfold thresholdLow
  rcases lt_trichotomy (seriesAvg s - 2 * seriesStd s) 0 with h | h | h
  · rw [if_neg (by linarith), max_eq_left (by linarith)]
  · rw [if_neg (by linarith), max_eq_left (by linarith)]
  · rw [if_pos h, max_eq_right (by linarith)]

/-- C3 witness: the constant series of value 2 (with one absent sample)
has zero standard deviation and no anomalies. -/
theorem c3_witness :
    seriesStd constPosSeries = 0 ∧
    (analyzeSeries constPosSeries).map (fun r => r.has_anomalies) = some false :=
  (c3_anomaly_detection constPosSeries).2.2.2.2.2 2 (by norm_num) (by
      intro h
      rw [show presentValues constPosSeries = [(2 : ℝ), 2] from rfl] at h
      exact (List.cons_ne_nil _ _) h)
    (by
      intro v hv
      have : presentValues constPosSeries = [(2 : ℝ), 2] := rfl
      rw [this] at hv
      rcases List.mem_cons.mp hv with h | h
      · exact h
      · simpa using h)

/-- Summarizing an error-tagged result yields the `"Error: ..."` line
(and in particular never raises). -/
theorem summarize_errorResult (e : String) :
    summarizeResult (errorResult e) = .ok ("Error: " ++ e) := rfl

/-- When every argument payload parses and every produced result
summarizes, the per-iteration tool loop always succeeds. -/
theorem execCalls_isOk (env : AgentEnv)
    (hp : ∀ a, ∃ x, env.parseArgs a = .ok x)
    (hs : ∀ name args, ∃ t, summarizeResult (executeTool env.handlers name args) = .ok t) :
    ∀ (calls : List ToolCallRec) (hist : List Msg) (trace : List TraceEntry),
      ∃ out, execCalls env calls hist trace = .ok out := by
  intro calls
  induction calls with
  | nil =>
    intro hist trace
    exact ⟨(hist, trace), rfl⟩
  | cons c rest ih =>
    intro hist trace
    obtain ⟨args, hpc⟩ := hp c.arguments
    obtain ⟨summary, hsc⟩ := hs c.name args
    obtain ⟨out, hout⟩ := ih
      (hist ++ [{ role := "tool",
                  content := some (env.dumps (executeTool env.handlers c.name args)),
                  tool_call_id := some c.id }])
      (trace ++ [⟨c.name, args, summary⟩])
    refine ⟨out, ?_⟩
    simp only [execCalls]
    rw [hpc]
    dsimp only
    rw [hsc]
    exact hout

/-- Under the same conditions the reasoning loop always succeeds. -/
theorem runLoop_isOk (env : AgentEnv)
    (hp : ∀ a, ∃ x, env.parseArgs a = .ok x)
    (hs : ∀ name args, ∃ t, summarizeResult (executeTool env.handlers name args) = .ok t) :
    ∀ (fuel iteration : Nat) (hist : List Msg) (trace : List TraceEntry),
      ∃ out, runLoop env fuel iteration hist trace = .ok out := by
  intro fuel
  induction fuel with
  | zero =>
    intro it hist trace
    exact ⟨_, rfl⟩
  | succ n ih =>
    intro it hist trace
    cases hmc : (env.model hist).tool_calls with
    | nil =>
      refine ⟨((env.model hist).content, it + 1, hist, trace), ?_⟩
      simp only [runLoop]
      rw [hmc]
    | cons c cs =>
      obtain ⟨out, hout⟩ := execCalls_isOk env hp hs (c :: cs)
        (hist ++ [assistantMsg (env.model hist)]) trace
      obtain ⟨out2, hrec⟩ := ih (it + 1) out.1 out.2
      refine ⟨out2, ?_⟩
      simp only [runLoop]
      rw [hmc]
      dsimp only
      rw [hout]
      exact hrec

/-- With an always-tool-requesting model the loop consumes its whole
budget and ends with no final answer. -/
theorem runLoop_exhausts (env : AgentEnv)
    (hm : ∀ hist, (env.model hist).tool_calls ≠ [])
    (hp : ∀ a, ∃ x, env.parseArgs a = .ok x)
    (hs : ∀ name args, ∃ t, summarizeResult (executeTool env.handlers name args) = .ok t) :
    ∀ (fuel iteration : Nat) (hist : List Msg) (trace : List TraceEntry),
      ∃ h t, runLoop env fuel iteration hist trace
        = .ok (none, iteration + fuel, h, t) := by
  intro fuel
  induction fuel with
  | zero =>
    intro it hist trace
    exact ⟨hist, trace, rfl⟩
  | succ n ih =>
    intro it hist trace
    cases hmc : (env.model hist).tool_calls with
    | nil => exact absurd hmc (hm hist)
    | cons c cs =>
      obtain ⟨out, hout⟩ := execCalls_isOk env hp hs (c :: cs)
        (hist ++ [assistantMsg (env.model hist)]) trace
      obtain ⟨h', t', hrec⟩ := ih (it + 1) out.1 out.2
      refine ⟨h', t', ?_⟩
      simp only [runLoop]
      rw [hmc]
      dsimp only
      rw [hout]
      dsimp only
      rw [hrec]
      have : it + 1 + n = it + (n + 1) := by omega
      rw [this]

/-- C7 counterexample: a model turn requesting a tool call whose
argument payload is not valid JSON makes `json.loads` raise and the
exception escapes `analyze` — the malformed call is not absorbed. -/
theorem c7_counterexample :
    analyze envBadJson [] "why is the db slow" none "2026-01-25T10:00:00"
      = .error "Expecting value: line 1 column 1 (char 0)" := by
  rfl

/-- C7 (amended): per-tool failures *during execution* are absorbed —
when every requested call's argument payload parses, the dispatcher's
error-tagged result is appended to the history as an ordinary
tool-result message (with the serialized error payload and an
`"Error: ..."` trace summary) and `analyze` returns normally; only a
payload that fails JSON parsing aborts the run. -/
theorem c7_tool_failures_absorbed (env : AgentEnv)
    (hp : ∀ a, ∃ x, env.parseArgs a = .ok x)
    (hs : ∀ name args, ∃ t, summarizeResult (executeTool env.handlers name args) = .ok t) :
    (∀ calls hist trace, ∃ out, execCalls env calls hist trace = .ok out) ∧
    (∀ (c : ToolCallRec) (rest : List ToolCallRec) (hist : List Msg)
       (trace : List TraceEntry) (args : Args) (e : String),
       env.parseArgs c.arguments = .ok args →
       executeTool env.handlers c.name args = errorResult e →
       execCalls env (c :: rest) hist trace =
         execCalls env rest
           (hist ++ [{ role := "tool",
                       content := some (env.dumps (errorResult e)),
                       tool_call_id := some c.id, tool_calls := [] }])
           (trace ++ [⟨c.name, args, "Error: " ++ e⟩])) ∧
    (∀ store msg cid now, ∃ res store1,
       analyze env store msg cid now = .ok (res, store1)) := by
  refine ⟨execCalls_isOk env hp hs, ?_, ?_⟩
  · intro c rest hist trace args e hpc hexec
    simp only [execCalls]
    rw [hpc]
    dsimp only
    rw [hexec, summarize_errorResult]
  · intro store msg cid now
    unfold analyze
    dsimp only
    obtain ⟨out, hrun⟩ := runLoop_isOk env hp hs 6 0 _ []
    rw [hrun]
    dsimp only
    cases cid with
    | none => exact ⟨_, _, rfl⟩
    | some id =>
      cases out.1 with
      | none => exact ⟨_, _, rfl⟩
      | some fr => exact ⟨_, _, rfl⟩

/-- C7 witness: a handler that raises produces an error-tagged tool
message appended to the history, and the surrounding `analyze` call
returns normally. -/
theorem c7_witness :
    execCalls envToolError [⟨"c1", "get_health_summary", "\x7b\x7d"⟩] [] []
      = execCalls envToolError []
          [{ role := "tool",
             content := some (envToolError.dumps (errorResult "boom")),
             tool_call_id := some "c1", tool_calls := [] }]
          [⟨"get_health_summary", [], "Error: boom"⟩] ∧
    (∃ res store1, analyze envToolError [] "q" none "t" = .ok (res, store1)) := by
  have h := c7_tool_failures_absorbed envToolError (fun a => ⟨[], rfl⟩) (by
    intro name args
    unfold executeTool lookupHandler
    split_ifs <;> exact ⟨_, rfl⟩)
  exact ⟨h.2.1 ⟨"c1", "get_health_summary", "\x7b\x7d"⟩ [] [] [] [] "boom" rfl rfl,
         h.2.2 [] "q" none "t"⟩

/-- C8 (confirmed): with a model collaborator that always requests a
(well-formed) tool call and never finalizes, `analyze` terminates
normally after exactly the iteration ceiling of 6 model invocations,
returning a structured result with `iterations = 6` and `analysis`
absent. -/
theorem c8_loop_exhaustion (env : AgentEnv)
    (hm : ∀ hist, (env.model hist).tool_calls ≠ [])
    (hp : ∀ a, ∃ x, env.parseArgs a = .ok x)
    (hs : ∀ name args, ∃ t, summarizeResult (executeTool env.handlers name args) = .ok t)
    (store : Store) (msg : String) (cid : Option String) (now : String) :
    ∃ res store1, analyze env store msg cid now = .ok (res, store1) ∧
      res.iterations = 6 ∧ res.analysis = none := by
  unfold analyze
  dsimp only
  obtain ⟨h', t', hrun⟩ := runLoop_exhausts env hm hp hs 6 0 _ []
  rw [hrun]
  dsimp only
  cases cid with
  | none => exact ⟨_, _, rfl, rfl, rfl⟩
  | some id => exact ⟨_, _, rfl, rfl, rfl⟩

/-- C8 witness: the concrete always-tool-requesting model exhausts the
budget with `iterations = 6` and no analysis. -/
theorem c8_witness :
    ∃ res store1, analyze envAlwaysTool [] "q" none "t" = .ok (res, store1) ∧
      res.iterations = 6 ∧ res.analysis = none :=
  c8_loop_exhaustion envAlwaysTool
    (fun hist => by simp [envAlwaysTool])
    (fun a => ⟨[], rfl⟩)
    (by
      intro name args
      unfold executeTool lookupHandler
      split_ifs <;> exact ⟨_, rfl⟩)
    [] "q" none "t"

end PGAI
